import Mathlib

/-!
Verification of the `brainstorm` orchestration backend against its
natural-language specification.

Each Python module relevant to the claims is shallowly embedded as plain
Lean definitions:

* `src/backend/config.py`            → `ModelConfig`
* `src/backend/core/model_router.py` → `select_model`
* `src/backend/core/intake.py`       → `analyze_intent`, `fallback_analysis`
* `src/backend/core/clarifier.py`    → `generate_clarifications`, `generate_approach_proposals`
* `src/backend/skills/skill_engine.py` → `select_skills`, `apply_profile_adjustments`
* `src/backend/mcps/mcp_selector.py` → `select_mcps`
* `src/backend/core/executor.py`     → `execute_prompt`
* `src/backend/core/orchestrator.py` → `processGate` (steps 2–3 of `process_message`)

External model calls (Gemini/Claude), which the Python code wraps in
`try/except`, are modelled as explicit `Except`-valued inputs: `Except.error`
covers an unreachable service, malformed JSON, a non-dict payload, or a failing
numeric conversion — every path that lands in the Python `except` block —
while `Except.ok` carries the successfully parsed payload, with per-field
`Option`s standing for `dict.get` with a default.  Python strings are `String`,
Python ints are `Int` (arbitrary precision in both), Python floats in the
skill scorer are exact rationals `ℚ` (the proved properties are independent of
rounding), and Python lists/dicts are `List`s / association lists.
-/

/-! ## `src/backend/config.py` — model name constants -/

namespace ModelConfig

def GEMINI_FLASH : String := "gemini-3-flash-preview"

def GEMINI_PRO : String := "gemini-3-pro-preview"

def CLAUDE_SONNET : String := "claude-sonnet-4-20250514"

end ModelConfig

/-! ## `src/backend/core/model_router.py` -/

/-- `ModelSelection` pydantic model. -/
structure ModelSelection where
  primary_model : String
  fallback_model : String
  provider : String
deriving Repr, DecidableEq

/-- The `code_tasks` set in `select_model`. -/
def code_tasks : List String := ["code", "debugging", "system_design", "math"]

/-- First decision block of `select_model` (`if task_type in code_tasks and
claude_available: ... elif task_type in ("creative", ...): ...`), acting on
the `(primary, fallback, provider)` triple of mutable locals. -/
def routerTaskRules (claude_available : Bool) (task_type : String)
    (complexity : Int) (p : String × String × String) :
    String × String × String :=
  if code_tasks.contains task_type ∧ claude_available then
    (ModelConfig.CLAUDE_SONNET, ModelConfig.GEMINI_FLASH, "claude")
  else if ["creative", "writing", "research", "analysis", "conversation",
      "data"].contains task_type then
    ((if complexity ≥ 7 then ModelConfig.GEMINI_PRO else ModelConfig.GEMINI_FLASH),
      ModelConfig.GEMINI_FLASH, "gemini")
  else p

/-- `# Upgrade for high complexity` block of `select_model`.  In the
`elif gemini_available` branch the Python code assigns only `primary` and
`fallback`, so the provider component is carried over from `p`. -/
def routerComplexityUpgrade (claude_available gemini_available : Bool)
    (complexity : Int) (p : String × String × String) :
    String × String × String :=
  if complexity ≥ 8 then
    if claude_available then
      (ModelConfig.CLAUDE_SONNET,
        (if gemini_available then ModelConfig.GEMINI_PRO else ModelConfig.GEMINI_FLASH),
        "claude")
    else if gemini_available then
      (ModelConfig.GEMINI_PRO, ModelConfig.GEMINI_FLASH, p.2.2)
    else p
  else p

/-- `# If no Claude key, everything goes to Gemini` block of `select_model`. -/
def routerNoClaudeKey (claude_available : Bool) (complexity : Int)
    (p : String × String × String) : String × String × String :=
  if ¬claude_available ∧ p.2.2 = "claude" then
    ((if complexity ≥ 7 then ModelConfig.GEMINI_PRO else ModelConfig.GEMINI_FLASH),
      ModelConfig.GEMINI_FLASH, "gemini")
  else p

/-- `# Override with recommended if it's different and makes sense` block of
`select_model`.  Both branches assign only `primary` and `provider`; the
fallback component is carried over from `p`. -/
def routerRecommendedOverride (claude_available : Bool) (task_type : String)
    (complexity : Int) (recommended : String) (p : String × String × String) :
    String × String × String :=
  if recommended = "claude" ∧ claude_available ∧ p.2.2 ≠ "claude" then
    (ModelConfig.CLAUDE_SONNET, p.2.1, "claude")
  else if recommended = "gemini" ∧ p.2.2 = "claude" ∧ ¬code_tasks.contains task_type then
    ((if complexity ≥ 7 then ModelConfig.GEMINI_PRO else ModelConfig.GEMINI_FLASH),
      p.2.1, "gemini")
  else p

/-- `select_model` from `model_router.py`.  The credential flags
`claude_available` / `gemini_available` stand for
`bool(keys.anthropic_api_key)` / `bool(keys.gemini_api_key)`; the Python
mutable locals `primary / fallback / provider` are threaded as one triple
through the function's four decision blocks in source order, starting from
the `# Default: Gemini Flash` initialisation. -/
def select_model (claude_available gemini_available : Bool)
    (task_type : String) (complexity : Int) (recommended : String) :
    ModelSelection :=
  let p0 : String × String × String :=
    (ModelConfig.GEMINI_FLASH, ModelConfig.GEMINI_FLASH, "gemini")
  let p1 := routerTaskRules claude_available task_type complexity p0
  let p2 := routerComplexityUpgrade claude_available gemini_available complexity p1
  let p3 := routerNoClaudeKey claude_available complexity p2
  let p4 := routerRecommendedOverride claude_available task_type complexity recommended p3
  { primary_model := p4.1, fallback_model := p4.2.1, provider := p4.2.2 }

/-- A router state that selects neither the Claude provider nor the Claude
model as primary. -/
def RouterSafe (p : String × String × String) : Prop :=
  p.2.2 ≠ "claude" ∧ p.1 ≠ ModelConfig.CLAUDE_SONNET

/-! ## String helpers shared by several modules

`strLower` models Python `str.lower()` (the code only ever compares
ASCII keyword strings), `containsSubstr` models Python's substring test
`needle in haystack`, and `wordCount` models `len(s.split())` (split on
whitespace runs, empty pieces dropped). -/

def strLower (s : String) : String := String.mk (s.data.map Char.toLower)

def containsSubstr (haystack needle : String) : Bool :=
  decide (needle.data <:+: haystack.data)

def wordCount (s : String) : Nat :=
  ((s.split Char.isWhitespace).filter (fun w => w ≠ "")).length

/-! ## `src/backend/core/intake.py` -/

def VALID_TASK_TYPES : List String :=
  ["code", "writing", "research", "analysis", "creative",
   "data", "math", "system_design", "debugging", "conversation"]

/-- `IntakeAnalysis` pydantic model.  `inferred_context` is an arbitrary
JSON object in Python, modelled as an association list. -/
structure IntakeAnalysis where
  interpreted_intent : String
  task_type : String
  complexity : Int
  confidence_score : Int
  ambiguity_areas : List String
  inferred_context : List (String × String)
  suggested_capabilities : List String
  recommended_model : String
deriving Repr, DecidableEq

/-- The upstream intake payload once `json.loads` succeeded on a dict and the
`int(...)` conversions of the numeric fields succeeded; each `Option` field
models `data.get(key)` being present or absent.  Any other upstream outcome
(thrown call, malformed JSON, non-dict payload, failing `int(...)`) lands in
the Python `except` block and is modelled as `Except.error`. -/
structure IntakeData where
  interpreted_intent : Option String
  task_type : Option String
  complexity : Option Int
  confidence_score : Option Int
  ambiguity_areas : Option (List String)
  inferred_context : Option (List (String × String))
  suggested_capabilities : Option (List String)
  recommended_model : Option String
deriving Repr, DecidableEq

def code_keywords : List String :=
  ["code", "function", "class", "api", "build", "implement", "fix", "bug",
   "error", "debug", "refactor"]

def writing_keywords : List String :=
  ["write", "essay", "article", "blog", "email", "letter"]

def research_keywords : List String :=
  ["research", "find", "search", "what is", "how does", "explain"]

def analysis_keywords : List String := ["analyze", "compare", "evaluate", "review"]

def creative_keywords : List String := ["design", "creative", "story", "poem"]

def data_keywords : List String := ["data", "csv", "chart", "graph", "statistics"]

def math_keywords : List String := ["calculate", "math", "formula", "equation", "solve"]

/-- The `for keywords, ttype in [...]` loop of `_fallback_analysis`: the first
keyword list with a member occurring as a substring of the lowered message
wins (`break`), otherwise the default `"conversation"` stands. -/
def detectTaskType (msg_lower : String) : String :=
  if code_keywords.any (fun kw => containsSubstr msg_lower kw) then "code"
  else if writing_keywords.any (fun kw => containsSubstr msg_lower kw) then "writing"
  else if research_keywords.any (fun kw => containsSubstr msg_lower kw) then "research"
  else if analysis_keywords.any (fun kw => containsSubstr msg_lower kw) then "analysis"
  else if creative_keywords.any (fun kw => containsSubstr msg_lower kw) then "creative"
  else if data_keywords.any (fun kw => containsSubstr msg_lower kw) then "data"
  else if math_keywords.any (fun kw => containsSubstr msg_lower kw) then "math"
  else "conversation"

/-- `_fallback_analysis` from `intake.py`: the heuristic used when the LLM
intake fails. -/
def fallback_analysis (user_message : String) (claude_available : Bool) :
    IntakeAnalysis :=
  let msg_lower := strLower user_message
  let task_type := detectTaskType msg_lower
  let recommended :=
    if ["code", "debugging", "system_design", "math"].contains task_type ∧
        claude_available then "claude" else "gemini"
  let complexity : Int := min 10 (max 1 ((wordCount user_message : Int) / 10 + 2))
  { interpreted_intent := user_message.take 200,
    task_type := task_type,
    complexity := complexity,
    confidence_score := 60,
    ambiguity_areas := ["Could not perform full intent analysis — using heuristic fallback"],
    inferred_context := [],
    suggested_capabilities := [],
    recommended_model := recommended }

/-- `analyze_intent` from `intake.py`.  The network call plus JSON parse is
the explicit `upstream` input; the validate-and-clamp sequence follows the
Python source line by line. -/
def analyze_intent (user_message : String) (claude_available : Bool)
    (upstream : Except Unit IntakeData) : IntakeAnalysis :=
  match upstream with
  | .error _ => fallback_analysis user_message claude_available
  | .ok data =>
    let task_type0 := data.task_type.getD "conversation"
    let task_type :=
      if VALID_TASK_TYPES.contains task_type0 then task_type0 else "conversation"
    let complexity := max 1 (min 10 (data.complexity.getD 3))
    let confidence := max 0 (min 100 (data.confidence_score.getD 50))
    let recommended0 := data.recommended_model.getD "gemini"
    let recommended1 :=
      if recommended0 = "gemini" ∨ recommended0 = "claude" then recommended0
      else "gemini"
    let recommended :=
      if recommended1 = "claude" ∧ ¬claude_available then "gemini" else recommended1
    { interpreted_intent := data.interpreted_intent.getD user_message,
      task_type := task_type,
      complexity := complexity,
      confidence_score := confidence,
      ambiguity_areas := data.ambiguity_areas.getD [],
      inferred_context := data.inferred_context.getD [],
      suggested_capabilities := data.suggested_capabilities.getD [],
      recommended_model := recommended }

/-! ## `src/backend/core/clarifier.py` -/

/-- `ClarificationQuestion` pydantic model. -/
structure ClarificationQuestion where
  question : String
  question_type : String
  options : List String
  default : String
  why_it_matters : String
deriving Repr, DecidableEq

/-- `ClarificationResult` pydantic model. -/
structure ClarificationResult where
  questions : List ClarificationQuestion
  needs_clarification : Bool
deriving Repr, DecidableEq

/-- One entry of the upstream `data["questions"]` list, each field as
returned by `q_data.get(key)`. -/
structure QData where
  question : Option String
  question_type : Option String
  options : Option (List String)
  default : Option String
  why_it_matters : Option String
deriving Repr, DecidableEq

/-- Body of the question loop in `generate_clarifications`: type default and
normalisation, then the `ClarificationQuestion(...)` construction with its
`get`-with-default fields. -/
def mkQuestion (q_data : QData) : ClarificationQuestion :=
  let q_type0 := q_data.question_type.getD "free_text"
  let q_type :=
    if q_type0 = "multiple_choice" ∨ q_type0 = "yes_no" ∨ q_type0 = "free_text" then
      q_type0
    else "free_text"
  { question := q_data.question.getD "",
    question_type := q_type,
    options := q_data.options.getD [],
    default := q_data.default.getD "",
    why_it_matters := q_data.why_it_matters.getD "" }

/-- `generate_clarifications` from `clarifier.py`.  `gemini_key` is
`bool(keys.gemini_api_key)`; `upstream` is the parsed `data.get("questions",
[])` list of a successful call, or `Except.error` for a thrown call /
malformed JSON (the `except` block returns the empty result). -/
def generate_clarifications (gemini_key : Bool)
    (upstream : Except Unit (List QData)) : ClarificationResult :=
  if ¬gemini_key then { questions := [], needs_clarification := false }
  else
    match upstream with
    | .error _ => { questions := [], needs_clarification := false }
    | .ok q_list =>
      let questions := (q_list.take 4).map mkQuestion
      { questions := questions, needs_clarification := questions.length > 0 }

/-- `ApproachProposal` pydantic model. -/
structure ApproachProposal where
  id : String
  title : String
  description : String
  pros : List String
  cons : List String
  effort_level : String
  recommended : Bool
deriving Repr, DecidableEq

/-- `ApproachProposalResult` pydantic model. -/
structure ApproachProposalResult where
  approaches : List ApproachProposal
  context_summary : String
deriving Repr, DecidableEq

/-- One entry of the upstream `data["approaches"]` list, each field as
returned by `a_data.get(key)`. -/
structure AData where
  id : Option String
  title : Option String
  description : Option String
  pros : Option (List String)
  cons : Option (List String)
  effort_level : Option String
  recommended : Option Bool
deriving Repr, DecidableEq

/-- The parsed upstream payload of `generate_approach_proposals`. -/
structure AUpstream where
  approaches : List AData
  context_summary : Option String
deriving Repr, DecidableEq

/-- Body of the approach loop in `generate_approach_proposals`; `idx` is
`len(approaches)` at append time, i.e. the position in the truncated list,
used as the default for a missing `"id"`. -/
def mkApproach (idx : Nat) (a_data : AData) : ApproachProposal :=
  { id := a_data.id.getD (toString idx),
    title := a_data.title.getD "",
    description := a_data.description.getD "",
    pros := a_data.pros.getD [],
    cons := a_data.cons.getD [],
    effort_level := a_data.effort_level.getD "medium",
    recommended := a_data.recommended.getD false }

/-- `generate_approach_proposals` from `clarifier.py`.  Mirrors
`data.get("approaches", [])[:3]` followed by the construction loop; the
`except` block and the missing-key case both return the empty result. -/
def generate_approach_proposals (gemini_key : Bool)
    (upstream : Except Unit AUpstream) : ApproachProposalResult :=
  if ¬gemini_key then { approaches := [], context_summary := "" }
  else
    match upstream with
    | .error _ => { approaches := [], context_summary := "" }
    | .ok data =>
      let approaches := (data.approaches.take 3).enum.map
        (fun p => mkApproach p.1 p.2)
      { approaches := approaches,
        context_summary := data.context_summary.getD "" }

/-! ## `src/backend/mcps/mcp_selector.py` -/

/-- `MCPServer` row from `database.py`; the JSON-list columns appear through
their `get_*` accessors, and `env_vars` as its key/value pairs.  The
`mcp_info` dicts built by `select_mcps` are field projections of this record
(plus the constant `needs_setup`/`required_config` annotations on the
recommended bucket), so the buckets are modelled as lists of the records
themselves. -/
structure MCPServer where
  id : Int
  name : String
  description : String
  category : String
  command : String
  args : List String
  env_vars : List (String × String)
  capabilities : List String
  trigger_task_types : List String
  trigger_keywords : List String
  requires_user_config : Bool
  enabled : Bool
  health_status : String
  priority : Int
deriving Repr, DecidableEq

/-- Relevance check of the selection loop:
`task_type in trigger_task_types` (an empty list matches nothing, like
Python's `if trigger_types else False`) or a lowered trigger keyword being a
substring of the lowered intent. -/
def mcpRelevant (task_type intent_lower : String) (mcp : MCPServer) : Bool :=
  mcp.trigger_task_types.contains task_type ||
    mcp.trigger_keywords.any (fun kw => containsSubstr intent_lower (strLower kw))

/-- `config_satisfied = not mcp.requires_user_config or has_config`, where
`has_config` is membership of `mcp.id` in the keys of the user-config map. -/
def configSatisfied (user_config_ids : List Int) (mcp : MCPServer) : Bool :=
  !mcp.requires_user_config || user_config_ids.contains mcp.id

/-- The `for mcp in all_mcps` loop of `select_mcps`, producing the unsorted
`(active, recommended)` pair in catalog order (Python appends; the recursion
conses the head onto the result for the tail, preserving order). -/
def selectLoop (task_type intent_lower : String) (user_config_ids : List Int) :
    List MCPServer → List MCPServer × List MCPServer
  | [] => ([], [])
  | mcp :: rest =>
    let p := selectLoop task_type intent_lower user_config_ids rest
    if ¬ mcpRelevant task_type intent_lower mcp then p
    else if ¬ mcp.enabled then p
    else if configSatisfied user_config_ids mcp then (mcp :: p.1, p.2)
    else (p.1, mcp :: p.2)

/-- Ascending-priority order used by the final `.sort(key=lambda x: x["priority"])`. -/
def prioLE (a b : MCPServer) : Prop := a.priority ≤ b.priority

instance : DecidableRel prioLE := fun a b => Int.decLe a.priority b.priority

instance : IsTotal MCPServer prioLE := ⟨fun a b => Int.le_total a.priority b.priority⟩

instance : IsTrans MCPServer prioLE := ⟨fun _ _ _ h1 h2 => le_trans h1 h2⟩

def sortByPriority (l : List MCPServer) : List MCPServer := l.insertionSort prioLE

/-- `select_mcps` from `mcp_selector.py` (the `session`-present, no-exception
path): partition the catalog by the loop above, then sort each bucket by
priority ascending. -/
def select_mcps (task_type interpreted_intent : String)
    (all_mcps : List MCPServer) (user_config_ids : List Int) :
    List MCPServer × List MCPServer :=
  let intent_lower := strLower interpreted_intent
  let p := selectLoop task_type intent_lower user_config_ids all_mcps
  (sortByPriority p.1, sortByPriority p.2)

/-! ## `src/backend/skills/skill_engine.py` -/

/-- `Skill` row from `database.py`; `best_for_task_types` through its JSON
accessor.  `effectiveness_score` is a Python float, modelled as an exact
rational — every property proved below is independent of float rounding,
since scores only influence the ordering used for truncation. -/
structure Skill where
  id : Int
  name : String
  category : String
  description : String
  implementation_template : String
  best_for_task_types : List String
  complexity_range_min : Int
  complexity_range_max : Int
  effectiveness_score : ℚ
  usage_count : Int
  positive_feedback_count : Int
  negative_feedback_count : Int
  active : Bool
deriving Repr, DecidableEq

/-- User profile fields read by the skill engine:
`user_profile.get("technical_level", "semi_technical")` and
`user_profile.get("communication_preferences", {})`. -/
structure UserProfile where
  technical_level : Option String
  communication_preferences : List (String × String)
deriving Repr, DecidableEq

/-- `dict.get(key)` on an association list. -/
def dictGet (d : List (String × String)) (key : String) : Option String :=
  (d.find? (fun kv => kv.1 == key)).map (fun kv => kv.2)

/-- The relevance score computed inside the candidate loop of
`select_skills`: effectiveness, `+0.2` on a direct task-type match, and
`+ratio*0.1` when the skill has been used, where the ratio is
`positive / max(1, positive + negative)`. -/
def skillScore (task_type : String) (skill : Skill) : ℚ :=
  let score := skill.effectiveness_score
  let score :=
    if skill.best_for_task_types.contains task_type then score + 2/10 else score
  if skill.usage_count > 0 then
    score + ((skill.positive_feedback_count : ℚ) /
      ((max 1 (skill.positive_feedback_count + skill.negative_feedback_count) : Int) : ℚ)) *
      (1/10)
  else score

/-- The candidate-building loop of `select_skills`: keep a skill when its
task applicability matches (`task_type in best_for or not best_for`) and the
request complexity lies in its declared range, pairing it with its score. -/
def candidatesList (task_type : String) (complexity : Int)
    (all_skills : List Skill) : List (Skill × ℚ) :=
  all_skills.filterMap (fun skill =>
    if (skill.best_for_task_types.contains task_type ||
          skill.best_for_task_types.isEmpty) &&
        (decide (skill.complexity_range_min ≤ complexity) &&
          decide (complexity ≤ skill.complexity_range_max)) then
      some (skill, skillScore task_type skill)
    else none)

/-- Descending-score order used by `candidates.sort(key=..., reverse=True)`
and by the re-sort in `_apply_profile_adjustments`. -/
def scoreGE (a b : Skill × ℚ) : Prop := b.2 ≤ a.2

instance : DecidableRel scoreGE := fun a b => inferInstanceAs (Decidable (b.2 ≤ a.2))

def sortByScoreDesc (l : List (Skill × ℚ)) : List (Skill × ℚ) :=
  l.insertionSort scoreGE

/-- The `for skill in all_skills: if skill.name == nm and skill.active:
append; break` pattern used twice by `_apply_profile_adjustments`, with the
forced score attached.  A `for ... break` scan is exactly `find?`. -/
def forceInclude (selected : List (Skill × ℚ)) (all_skills : List Skill)
    (nm : String) (score : ℚ) : List (Skill × ℚ) :=
  match all_skills.find? (fun s => s.name == nm && s.active) with
  | some s => selected ++ [(s, score)]
  | none => selected

/-- `_apply_profile_adjustments` from `skill_engine.py`: force-include
`concise_mode` (score 0.9) for expert/brief users and
`error_handling_focus` (score 0.85) for technical/expert users on code
tasks when absent, then re-sort by score and keep at most 6.  Neither forced
inclusion checks the skill's complexity range. -/
def apply_profile_adjustments (selected : List (Skill × ℚ))
    (user_profile : UserProfile) (task_type : String)
    (all_skills : List Skill) : List (Skill × ℚ) :=
  let technical_level := user_profile.technical_level.getD "semi_technical"
  let wants_concise := technical_level = "expert" ∨
    dictGet user_profile.communication_preferences "detail_level" = some "brief"
  let selected1 :=
    if wants_concise ∧ ¬ (selected.map (fun it => it.1.name)).contains "concise_mode" then
      forceInclude selected all_skills "concise_mode" (9/10)
    else selected
  let selected2 :=
    if task_type = "code" ∧ (technical_level = "technical" ∨ technical_level = "expert") ∧
        ¬ (selected1.map (fun it => it.1.name)).contains "error_handling_focus" then
      forceInclude selected1 all_skills "error_handling_focus" (85/100)
    else selected1
  (sortByScoreDesc selected2).take 6

/-- `select_skills` from `skill_engine.py` (the `session`-present,
no-exception path): the DB query keeps active skills, the loop builds scored
candidates, the top 5 by descending score are kept, then profile adjustments
apply.  The returned `to_dict()` entries are field projections of the `Skill`
records, so the result is modelled as the records themselves; the
`usage_count += 1` side effect on the selected rows is not needed by any
claim and is not modelled. -/
def select_skills (task_type : String) (complexity : Int)
    (user_profile : Option UserProfile) (catalog : List Skill) : List Skill :=
  let all_skills := catalog.filter (fun s => s.active)
  let candidates := candidatesList task_type complexity all_skills
  let selected := (sortByScoreDesc candidates).take 5
  let selected :=
    match user_profile with
    | some p => apply_profile_adjustments selected p task_type all_skills
    | none => selected
  selected.map (fun it => it.1)

/-! ## `src/backend/core/executor.py` -/

/-- The dict returned by `_execute_gemini` / `_execute_claude` on success:
exactly `content`, `model_used`, `tool_calls_made`, `files_created`. -/
structure RawResult where
  content : String
  model_used : String
  tool_calls_made : List String
  files_created : List String
deriving Repr, DecidableEq

/-- The dict returned by `execute_prompt`.  The Python success dicts carry no
`fallback_used` / `error` keys; their absence is modelled as
`fallback_used = false` / `error = none`. -/
structure ExecOutcome where
  content : String
  model_used : String
  tool_calls_made : List String
  files_created : List String
  fallback_used : Bool
  error : Option String
deriving Repr, DecidableEq

def ofRaw (r : RawResult) : ExecOutcome :=
  { content := r.content, model_used := r.model_used,
    tool_calls_made := r.tool_calls_made, files_created := r.files_created,
    fallback_used := false, error := none }

/-- The `except`-block apology dict of `execute_prompt`, embedding the
primary error `e`. -/
def apologyResult (e model : String) : ExecOutcome :=
  { content := "I encountered an error processing your request. Please try again.\n\nError: " ++ e,
    model_used := model, tool_calls_made := [], files_created := [],
    fallback_used := false, error := some e }

/-- `execute_prompt` from `executor.py`.  `call provider model prompt` is the
oracle for `_execute_claude` (provider `"claude"`) / `_execute_gemini` (any
other provider, and always the retry): `Except.error e` stands for a raised
exception with message `e`.  Besides the result dict, the returned trace
lists the `(provider, model)` of each upstream attempt in order, so that
retry-count and retry-target properties can be stated.  The Python guard
`if fallback_model and fallback_model != model` treats `None` and the empty
string as falsy. -/
def execute_prompt (call : String → String → String → Except String RawResult)
    (prompt model provider : String) (fallback_model : Option String) :
    ExecOutcome × List (String × String) :=
  let primary_provider := if provider = "claude" then "claude" else "gemini"
  match call primary_provider model prompt with
  | .ok result => (ofRaw result, [(primary_provider, model)])
  | .error e =>
    match fallback_model with
    | some fb =>
      if fb ≠ "" ∧ fb ≠ model then
        match call "gemini" fb prompt with
        | .ok result =>
          ({ ofRaw result with fallback_used := true },
            [(primary_provider, model), ("gemini", fb)])
        | .error _ =>
          (apologyResult e model, [(primary_provider, model), ("gemini", fb)])
      else (apologyResult e model, [(primary_provider, model)])
    | none => (apologyResult e model, [(primary_provider, model)])

/-! ## `src/backend/core/orchestrator.py` — steps 2–3 of `process_message` -/

/-- The fields of the `intake` dict read by the gating logic of
`process_message`.  `requires_brainstorming` models
`intake.get("requires_brainstorming", False)`; note that the backend
analyzer's `IntakeAnalysis.model_dump()` carries no such key, so an
`analyzed` dict produced by `analyze_intent` always reads `false` here —
the field is kept explicit so the gate can be analysed for any dict a
caller supplies. -/
structure IntakeDict where
  interpreted_intent : String
  task_type : String
  complexity : Int
  confidence_score : Int
  requires_brainstorming : Bool
deriving Repr, DecidableEq

/-- The pipeline events emitted by the gate: `{"type": "status", "state": s}`
(constant `detail` texts dropped), `{"type": "clarification", ...}` and
`{"type": "approach_proposal", ...}` (their `_intake` echo dropped). -/
inductive PEvent where
  | status (state : String)
  | clarification (questions : List ClarificationQuestion)
  | approach_proposal (approaches : List ApproachProposal) (context_summary : String)
deriving Repr, DecidableEq

/-- Python truthiness of the optional `clarification_answers` dict: `None`
and `{}` are both falsy. -/
def truthy {α : Type} : Option (List α) → Bool
  | none => false
  | some l => !l.isEmpty

/-- Steps 2–3 of `process_message` (`# STEP 2: Intent Analysis` and
`# STEP 3: Brainstorming gate & Clarification`): the resumed-turn
confidence override, the brainstorming gate, and the low-confidence
clarification gate.  `analyzed` is the result of the `analyze_intent` call
(taken when `previous_intake and clarification_answers` is falsy), `clar` /
`appr` the results of the clarifier calls made inside the gate, and
`selected_approach` the truthiness of the homonymous argument.  Returns the
events emitted by these steps and whether the turn suspends (the early
`return` after yielding a clarification or approach request); `(_, false)`
means the pipeline proceeds to step 4 (skill selection). -/
def processGate (previous_intake : Option IntakeDict)
    (clarification_answers : Option (List (String × String)))
    (selected_approach : Bool) (analyzed : IntakeDict)
    (clar : ClarificationResult) (appr : ApproachProposalResult) :
    List PEvent × Bool :=
  let intake :=
    match previous_intake with
    | some prev =>
      if truthy clarification_answers then { prev with confidence_score := 95 }
      else analyzed
    | none => analyzed
  if intake.requires_brainstorming then
    if ¬ truthy clarification_answers then
      if clar.needs_clarification then
        ([PEvent.status "clarifying", PEvent.clarification clar.questions], true)
      else ([PEvent.status "clarifying"], false)
    else if ¬ selected_approach then
      if appr.approaches ≠ [] then
        ([PEvent.status "brainstorming",
          PEvent.approach_proposal appr.approaches appr.context_summary], true)
      else ([PEvent.status "brainstorming"], false)
    else ([], false)
  else if intake.confidence_score < 85 ∧ ¬ truthy clarification_answers then
    if clar.needs_clarification then
      ([PEvent.status "clarifying", PEvent.clarification clar.questions], true)
    else ([PEvent.status "clarifying"], false)
  else ([], false)

/-! ## Theorems -/

theorem routerTaskRules_safe (task_type : String) (complexity : Int)
    (p : String × String × String) (hp : RouterSafe p) :
    RouterSafe (routerTaskRules false task_type complexity p) := by
  unfold RouterSafe at hp ⊢
  unfold routerTaskRules
  split_ifs <;> first
    | exact hp
    | simp_all [ModelConfig.GEMINI_FLASH, ModelConfig.GEMINI_PRO, ModelConfig.CLAUDE_SONNET]

theorem routerComplexityUpgrade_safe (gemini_available : Bool) (complexity : Int)
    (p : String × String × String) (hp : RouterSafe p) :
    RouterSafe (routerComplexityUpgrade false gemini_available complexity p) := by
  unfold RouterSafe at hp ⊢
  unfold routerComplexityUpgrade
  split_ifs <;> first
    | exact hp
    | simp_all [ModelConfig.GEMINI_FLASH, ModelConfig.GEMINI_PRO, ModelConfig.CLAUDE_SONNET]

theorem routerNoClaudeKey_safe (complexity : Int)
    (p : String × String × String) (hp : RouterSafe p) :
    RouterSafe (routerNoClaudeKey false complexity p) := by
  unfold RouterSafe at hp ⊢
  unfold routerNoClaudeKey
  split_ifs <;> first
    | exact hp
    | simp_all [ModelConfig.GEMINI_FLASH, ModelConfig.GEMINI_PRO, ModelConfig.CLAUDE_SONNET]

theorem routerRecommendedOverride_safe (task_type : String) (complexity : Int)
    (recommended : String) (p : String × String × String) (hp : RouterSafe p) :
    RouterSafe (routerRecommendedOverride false task_type complexity recommended p) := by
  unfold RouterSafe at hp ⊢
  unfold routerRecommendedOverride
  split_ifs <;> first
    | exact hp
    | simp_all [ModelConfig.GEMINI_FLASH, ModelConfig.GEMINI_PRO, ModelConfig.CLAUDE_SONNET]

/-- **C1.** With the Anthropic/Claude credential flag false, `select_model`
never returns provider `"claude"` and never selects the Claude model as
primary, for every task type, complexity, recommendation hint and Gemini
credential state. -/
theorem c1_router_never_claude_without_key
    (gemini_available : Bool) (task_type : String) (complexity : Int)
    (recommended : String) :
    (select_model false gemini_available task_type complexity recommended).provider ≠ "claude" ∧
    (select_model false gemini_available task_type complexity recommended).primary_model ≠
      ModelConfig.CLAUDE_SONNET := by
  have h0 : RouterSafe (ModelConfig.GEMINI_FLASH, ModelConfig.GEMINI_FLASH, "gemini") :=
    ⟨by decide, by decide⟩
  have h := routerRecommendedOverride_safe task_type complexity recommended _
    (routerNoClaudeKey_safe complexity _
      (routerComplexityUpgrade_safe gemini_available complexity _
        (routerTaskRules_safe task_type complexity _ h0)))
  exact ⟨h.1, h.2⟩

theorem detectTaskType_valid (msg_lower : String) :
    VALID_TASK_TYPES.contains (detectTaskType msg_lower) = true := by
  unfold detectTaskType
  split_ifs <;> decide

/-- **C8.** For every input message and every upstream outcome — well-formed,
malformed (collapsed into the error case), or a thrown error — the analysis
returned by `analyze_intent` has `1 ≤ complexity ≤ 10`,
`0 ≤ confidence_score ≤ 100`, and a task type inside `VALID_TASK_TYPES`. -/
theorem c8_intake_invariants (user_message : String) (claude_available : Bool)
    (upstream : Except Unit IntakeData) :
    1 ≤ (analyze_intent user_message claude_available upstream).complexity ∧
    (analyze_intent user_message claude_available upstream).complexity ≤ 10 ∧
    0 ≤ (analyze_intent user_message claude_available upstream).confidence_score ∧
    (analyze_intent user_message claude_available upstream).confidence_score ≤ 100 ∧
    VALID_TASK_TYPES.contains
      (analyze_intent user_message claude_available upstream).task_type = true := by
  cases upstream with
  | error e =>
    have hcx : (analyze_intent user_message claude_available (.error e)).complexity =
        min 10 (max 1 ((wordCount user_message : Int) / 10 + 2)) := rfl
    have hcf : (analyze_intent user_message claude_available (.error e)).confidence_score =
        60 := rfl
    have htt : (analyze_intent user_message claude_available (.error e)).task_type =
        detectTaskType (strLower user_message) := rfl
    rw [hcx, hcf, htt]
    refine ⟨?_, ?_, by norm_num, by norm_num, detectTaskType_valid _⟩ <;> omega
  | ok data =>
    have hcx : (analyze_intent user_message claude_available (.ok data)).complexity =
        max 1 (min 10 (data.complexity.getD 3)) := rfl
    have hcf : (analyze_intent user_message claude_available (.ok data)).confidence_score =
        max 0 (min 100 (data.confidence_score.getD 50)) := rfl
    have htt : (analyze_intent user_message claude_available (.ok data)).task_type =
        (if VALID_TASK_TYPES.contains (data.task_type.getD "conversation") then
          data.task_type.getD "conversation" else "conversation") := rfl
    rw [hcx, hcf, htt]
    refine ⟨by omega, by omega, by omega, by omega, ?_⟩
    split_ifs with h
    · exact h
    · decide

/-- **C9.** On intake failure (or malformed output) `analyze_intent` returns
the deterministic heuristic fallback: task type by keyword-set substring
matching with the first matching list winning (`code`, `writing`, `research`,
`analysis`, `creative`, `data`, `math`, in source order) and `"conversation"`
otherwise; complexity `clamp(1,10, words/10 + 2)`; confidence exactly 60; and
a single non-empty fallback notice in `ambiguity_areas`. -/
theorem c9_intake_fallback_deterministic (user_message : String)
    (claude_available : Bool) :
    analyze_intent user_message claude_available (Except.error ()) =
      fallback_analysis user_message claude_available ∧
    (fallback_analysis user_message claude_available).confidence_score = 60 ∧
    (fallback_analysis user_message claude_available).complexity =
      min 10 (max 1 ((wordCount user_message : Int) / 10 + 2)) ∧
    (fallback_analysis user_message claude_available).ambiguity_areas =
      ["Could not perform full intent analysis — using heuristic fallback"] ∧
    "Could not perform full intent analysis — using heuristic fallback" ≠ "" ∧
    (code_keywords.any (fun kw => containsSubstr (strLower user_message) kw) = true →
      (fallback_analysis user_message claude_available).task_type = "code") ∧
    (code_keywords.any (fun kw => containsSubstr (strLower user_message) kw) = false →
      writing_keywords.any (fun kw => containsSubstr (strLower user_message) kw) = true →
      (fallback_analysis user_message claude_available).task_type = "writing") ∧
    (code_keywords.any (fun kw => containsSubstr (strLower user_message) kw) = false →
      writing_keywords.any (fun kw => containsSubstr (strLower user_message) kw) = false →
      research_keywords.any (fun kw => containsSubstr (strLower user_message) kw) = true →
      (fallback_analysis user_message claude_available).task_type = "research") ∧
    (code_keywords.any (fun kw => containsSubstr (strLower user_message) kw) = false →
      writing_keywords.any (fun kw => containsSubstr (strLower user_message) kw) = false →
      research_keywords.any (fun kw => containsSubstr (strLower user_message) kw) = false →
      analysis_keywords.any (fun kw => containsSubstr (strLower user_message) kw) = true →
      (fallback_analysis user_message claude_available).task_type = "analysis") ∧
    (code_keywords.any (fun kw => containsSubstr (strLower user_message) kw) = false →
      writing_keywords.any (fun kw => containsSubstr (strLower user_message) kw) = false →
      research_keywords.any (fun kw => containsSubstr (strLower user_message) kw) = false →
      analysis_keywords.any (fun kw => containsSubstr (strLower user_message) kw) = false →
      creative_keywords.any (fun kw => containsSubstr (strLower user_message) kw) = true →
      (fallback_analysis user_message claude_available).task_type = "creative") ∧
    (code_keywords.any (fun kw => containsSubstr (strLower user_message) kw) = false →
      writing_keywords.any (fun kw => containsSubstr (strLower user_message) kw) = false →
      research_keywords.any (fun kw => containsSubstr (strLower user_message) kw) = false →
      analysis_keywords.any (fun kw => containsSubstr (strLower user_message) kw) = false →
      creative_keywords.any (fun kw => containsSubstr (strLower user_message) kw) = false →
      data_keywords.any (fun kw => containsSubstr (strLower user_message) kw) = true →
      (fallback_analysis user_message claude_available).task_type = "data") ∧
    (code_keywords.any (fun kw => containsSubstr (strLower user_message) kw) = false →
      writing_keywords.any (fun kw => containsSubstr (strLower user_message) kw) = false →
      research_keywords.any (fun kw => containsSubstr (strLower user_message) kw) = false →
      analysis_keywords.any (fun kw => containsSubstr (strLower user_message) kw) = false →
      creative_keywords.any (fun kw => containsSubstr (strLower user_message) kw) = false →
      data_keywords.any (fun kw => containsSubstr (strLower user_message) kw) = false →
      math_keywords.any (fun kw => containsSubstr (strLower user_message) kw) = true →
      (fallback_analysis user_message claude_available).task_type = "math") ∧
    (code_keywords.any (fun kw => containsSubstr (strLower user_message) kw) = false →
      writing_keywords.any (fun kw => containsSubstr (strLower user_message) kw) = false →
      research_keywords.any (fun kw => containsSubstr (strLower user_message) kw) = false →
      analysis_keywords.any (fun kw => containsSubstr (strLower user_message) kw) = false →
      creative_keywords.any (fun kw => containsSubstr (strLower user_message) kw) = false →
      data_keywords.any (fun kw => containsSubstr (strLower user_message) kw) = false →
      math_keywords.any (fun kw => containsSubstr (strLower user_message) kw) = false →
      (fallback_analysis user_message claude_available).task_type = "conversation") := by
  have htt : (fallback_analysis user_message claude_available).task_type =
      detectTaskType (strLower user_message) := rfl
  refine ⟨rfl, rfl, rfl, rfl, by decide, ?_, ?_, ?_, ?_, ?_, ?_, ?_, ?_⟩ <;>
    (intros ; rw [htt] ; unfold detectTaskType ; simp only [*] ; simp)

/-- Closed witness for `c9_intake_fallback_deterministic` at the message
`"calculate this"`, whose only keyword match is the math list. -/
theorem c9_intake_fallback_witness :
    (fallback_analysis "calculate this" true).task_type = "math" ∧
    (analyze_intent "calculate this" true (Except.error ())).confidence_score = 60 := by
  have h := c9_intake_fallback_deterministic "calculate this" true
  refine ⟨h.2.2.2.2.2.2.2.2.2.2.2.1 (by decide) (by decide) (by decide) (by decide)
    (by decide) (by decide) (by decide), ?_⟩
  rw [h.1]
  exact h.2.1

/-- **C4 (counterexample).** A single upstream question with no `"default"`
key yields a returned question whose default is the empty string, refuting
"every returned ClarificationQuestion has a non-empty default string". -/
theorem c4_default_empty_counterexample :
    (generate_clarifications true
        (Except.ok [{ question := some "What kind of website?",
                      question_type := some "free_text",
                      options := none, default := none,
                      why_it_matters := none }])).questions.map
      (fun q => q.default) = [""] := by
  decide

/-- **C4 (amended).** Every call of `generate_clarifications` returns at most
4 questions, each with a question type normalised into
`{multiple_choice, yes_no, free_text}`, and `needs_clarification` true
exactly when a question was produced; the default string is taken verbatim
from the upstream payload (empty when absent) and may be empty. -/
theorem c4_clarifications_amended (gemini_key : Bool)
    (upstream : Except Unit (List QData)) :
    (generate_clarifications gemini_key upstream).questions.length ≤ 4 ∧
    ((generate_clarifications gemini_key upstream).questions.all
      (fun q => ["multiple_choice", "yes_no", "free_text"].contains q.question_type)) = true ∧
    (generate_clarifications gemini_key upstream).needs_clarification =
      ((generate_clarifications gemini_key upstream).questions.length > 0 : Bool) := by
  cases gemini_key with
  | false =>
    have h : generate_clarifications false upstream =
        { questions := [], needs_clarification := false } := rfl
    rw [h]
    exact ⟨by decide, by decide, by decide⟩
  | true =>
    cases upstream with
    | error e =>
      have h : generate_clarifications true (.error e) =
          { questions := [], needs_clarification := false } := rfl
      rw [h]
      exact ⟨by decide, by decide, by decide⟩
    | ok q_list =>
      have hq : (generate_clarifications true (.ok q_list)).questions =
          (q_list.take 4).map mkQuestion := rfl
      have hn : (generate_clarifications true (.ok q_list)).needs_clarification =
          (((q_list.take 4).map mkQuestion).length > 0 : Bool) := rfl
      refine ⟨?_, ?_, ?_⟩
      · rw [hq]
        simp only [List.length_map, List.length_take]
        omega
      · rw [hq]
        simp only [List.all_eq_true]
        intro q hqmem
        obtain ⟨qd, _, rfl⟩ := List.mem_map.mp hqmem
        simp only [mkQuestion]
        split_ifs with ht
        · rcases ht with h1 | h1 | h1 <;> rw [h1] <;> decide
        · decide
      · rw [hn, hq]

/-- **C3 (counterexample).** An upstream response carrying a single approach
with no `"recommended"` key produces a non-empty proposal list of length 1
with zero recommended entries: the code never enforces the 2–3 count or the
exactly-one-recommended property. -/
theorem c3_count_counterexample :
    ((generate_approach_proposals true
        (Except.ok { approaches := [{ id := some "a",
                                      title := some "Monolith with Batteries",
                                      description := some "Single app",
                                      pros := none, cons := none,
                                      effort_level := none,
                                      recommended := none }],
                     context_summary := none })).approaches ≠ [] ∧
      (generate_approach_proposals true
        (Except.ok { approaches := [{ id := some "a",
                                      title := some "Monolith with Batteries",
                                      description := some "Single app",
                                      pros := none, cons := none,
                                      effort_level := none,
                                      recommended := none }],
                     context_summary := none })).approaches.length = 1 ∧
      ((generate_approach_proposals true
        (Except.ok { approaches := [{ id := some "a",
                                      title := some "Monolith with Batteries",
                                      description := some "Single app",
                                      pros := none, cons := none,
                                      effort_level := none,
                                      recommended := none }],
                     context_summary := none })).approaches.filter
        (fun a => a.recommended)).length = 0) := by
  decide

/-- **C3 (amended).** Every call of `generate_approach_proposals` returns at
most 3 proposals; the 2–3 count and the exactly-one-recommended property are
requested of the model in the system prompt but not enforced on its output. -/
theorem c3_approaches_at_most_three (gemini_key : Bool)
    (upstream : Except Unit AUpstream) :
    (generate_approach_proposals gemini_key upstream).approaches.length ≤ 3 := by
  cases gemini_key with
  | false =>
    have h : generate_approach_proposals false upstream =
        { approaches := [], context_summary := "" } := rfl
    rw [h]
    decide
  | true =>
    cases upstream with
    | error e =>
      have h : generate_approach_proposals true (.error e) =
          { approaches := [], context_summary := "" } := rfl
      rw [h]
      decide
    | ok data =>
      have h : (generate_approach_proposals true (.ok data)).approaches =
          (data.approaches.take 3).enum.map (fun p => mkApproach p.1 p.2) := rfl
      rw [h]
      simp only [List.length_map, List.enum_length, List.length_take]
      omega

theorem selectLoop_active_mem (task_type intent_lower : String)
    (cfg : List Int) (l : List MCPServer) (x : MCPServer)
    (hx : x ∈ (selectLoop task_type intent_lower cfg l).1) :
    x ∈ l ∧ mcpRelevant task_type intent_lower x = true ∧
      x.enabled = true ∧ configSatisfied cfg x = true := by
  induction l with
  | nil => simp [selectLoop] at hx
  | cons mcp rest ih =>
    simp only [selectLoop] at hx
    split_ifs at hx with h1 h2 h3 <;> (try dsimp only at hx) <;>
      first
      | (rcases List.mem_cons.mp hx with rfl | hmem
         · exact ⟨List.mem_cons_self _ _, by simpa using h1, by simpa using h2, h3⟩
         · obtain ⟨h, h', h'', h'''⟩ := ih hmem
           exact ⟨List.mem_cons_of_mem _ h, h', h'', h'''⟩)
      | (obtain ⟨h, h', h'', h'''⟩ := ih hx
         exact ⟨List.mem_cons_of_mem _ h, h', h'', h'''⟩)

theorem selectLoop_rec_mem (task_type intent_lower : String)
    (cfg : List Int) (l : List MCPServer) (x : MCPServer)
    (hx : x ∈ (selectLoop task_type intent_lower cfg l).2) :
    x ∈ l ∧ mcpRelevant task_type intent_lower x = true ∧
      x.enabled = true ∧ configSatisfied cfg x = false := by
  induction l with
  | nil => simp [selectLoop] at hx
  | cons mcp rest ih =>
    simp only [selectLoop] at hx
    split_ifs at hx with h1 h2 h3 <;> (try dsimp only at hx) <;>
      first
      | (rcases List.mem_cons.mp hx with rfl | hmem
         · exact ⟨List.mem_cons_self _ _, by simpa using h1, by simpa using h2,
             by simpa using h3⟩
         · obtain ⟨h, h', h'', h'''⟩ := ih hmem
           exact ⟨List.mem_cons_of_mem _ h, h', h'', h'''⟩)
      | (obtain ⟨h, h', h'', h'''⟩ := ih hx
         exact ⟨List.mem_cons_of_mem _ h, h', h'', h'''⟩)

theorem selectLoop_mem_rec (task_type intent_lower : String)
    (cfg : List Int) (l : List MCPServer) (m : MCPServer)
    (hm : m ∈ l) (hrel : mcpRelevant task_type intent_lower m = true)
    (hen : m.enabled = true) (hcs : configSatisfied cfg m = false) :
    m ∈ (selectLoop task_type intent_lower cfg l).2 := by
  induction l with
  | nil => simp at hm
  | cons mcp rest ih =>
    simp only [selectLoop]
    rcases List.mem_cons.mp hm with rfl | hmem
    · rw [if_neg (by simp [hrel]), if_neg (by simp [hen]), if_neg (by simp [hcs])]
      exact List.mem_cons_self _ _
    · split_ifs with h1 h2 h3 <;> (try dsimp only) <;>
        first
        | exact ih hmem
        | exact List.mem_cons_of_mem _ (ih hmem)

/-- **C7.** A tool that is relevant (task-type or keyword match), enabled,
requires user configuration and has no user configuration lands in the
recommended bucket and never in the active bucket; the selector is a pure
function so repeated calls agree; and both buckets are sorted ascending by
priority. -/
theorem c7_unconfigured_never_active (task_type interpreted_intent : String)
    (catalog : List MCPServer) (user_config_ids : List Int) (m : MCPServer)
    (hm : m ∈ catalog)
    (hrel : mcpRelevant task_type (strLower interpreted_intent) m = true)
    (hen : m.enabled = true)
    (hreq : m.requires_user_config = true)
    (hconf : user_config_ids.contains m.id = false) :
    m ∈ (select_mcps task_type interpreted_intent catalog user_config_ids).2 ∧
    m ∉ (select_mcps task_type interpreted_intent catalog user_config_ids).1 ∧
    select_mcps task_type interpreted_intent catalog user_config_ids =
      select_mcps task_type interpreted_intent catalog user_config_ids ∧
    (select_mcps task_type interpreted_intent catalog user_config_ids).1.Sorted prioLE ∧
    (select_mcps task_type interpreted_intent catalog user_config_ids).2.Sorted prioLE := by
  have hcs : configSatisfied user_config_ids m = false := by
    unfold configSatisfied
    rw [hreq, hconf]
    rfl
  have h1 : (select_mcps task_type interpreted_intent catalog user_config_ids).1 =
      sortByPriority (selectLoop task_type (strLower interpreted_intent)
        user_config_ids catalog).1 := rfl
  have h2 : (select_mcps task_type interpreted_intent catalog user_config_ids).2 =
      sortByPriority (selectLoop task_type (strLower interpreted_intent)
        user_config_ids catalog).2 := rfl
  refine ⟨?_, ?_, rfl, ?_, ?_⟩
  · rw [h2]
    unfold sortByPriority
    rw [List.mem_insertionSort]
    exact selectLoop_mem_rec _ _ _ _ _ hm hrel hen hcs
  · rw [h1]
    unfold sortByPriority
    rw [List.mem_insertionSort]
    intro hmem
    have := (selectLoop_active_mem _ _ _ _ _ hmem).2.2.2
    rw [hcs] at this
    exact Bool.false_ne_true this
  · rw [h1]
    exact List.sorted_insertionSort prioLE _
  · rw [h2]
    exact List.sorted_insertionSort prioLE _

/-- Closed witness for `c7_unconfigured_never_active`: a GitHub-style tool
requiring a token, with no user config, on a `"code"` task. -/
theorem c7_unconfigured_never_active_witness :
    ({ id := 1, name := "github", description := "GitHub MCP",
       category := "code_tools", command := "npx", args := [],
       env_vars := [("GITHUB_TOKEN", "")], capabilities := ["repos"],
       trigger_task_types := ["code"], trigger_keywords := ["github"],
       requires_user_config := true, enabled := true,
       health_status := "unknown", priority := 2 } : MCPServer) ∈
      (select_mcps "code" "Fix the failing build"
        [{ id := 1, name := "github", description := "GitHub MCP",
           category := "code_tools", command := "npx", args := [],
           env_vars := [("GITHUB_TOKEN", "")], capabilities := ["repos"],
           trigger_task_types := ["code"], trigger_keywords := ["github"],
           requires_user_config := true, enabled := true,
           health_status := "unknown", priority := 2 }] []).2 :=
  (c7_unconfigured_never_active "code" "Fix the failing build" _ [] _
    (by decide) (by decide) (by decide) (by decide) (by decide)).1

/-- **C10.** A tool whose triggers match the request but whose `enabled` flag
is false is returned in neither bucket. -/
theorem c10_disabled_never_returned (task_type interpreted_intent : String)
    (catalog : List MCPServer) (user_config_ids : List Int) (m : MCPServer)
    (hrel : mcpRelevant task_type (strLower interpreted_intent) m = true)
    (hdis : m.enabled = false) :
    m ∉ (select_mcps task_type interpreted_intent catalog user_config_ids).1 ∧
    m ∉ (select_mcps task_type interpreted_intent catalog user_config_ids).2 := by
  have h1 : (select_mcps task_type interpreted_intent catalog user_config_ids).1 =
      sortByPriority (selectLoop task_type (strLower interpreted_intent)
        user_config_ids catalog).1 := rfl
  have h2 : (select_mcps task_type interpreted_intent catalog user_config_ids).2 =
      sortByPriority (selectLoop task_type (strLower interpreted_intent)
        user_config_ids catalog).2 := rfl
  constructor
  · rw [h1]
    unfold sortByPriority
    rw [List.mem_insertionSort]
    intro hmem
    have := (selectLoop_active_mem _ _ _ _ _ hmem).2.2.1
    rw [hdis] at this
    exact Bool.false_ne_true this
  · rw [h2]
    unfold sortByPriority
    rw [List.mem_insertionSort]
    intro hmem
    have := (selectLoop_rec_mem _ _ _ _ _ hmem).2.2.1
    rw [hdis] at this
    exact Bool.false_ne_true this

/-- Closed witness for `c10_disabled_never_returned`: a disabled but
keyword-matched tool is absent from both buckets. -/
theorem c10_disabled_never_returned_witness :
    ({ id := 7, name := "postgres", description := "Postgres MCP",
       category := "data", command := "npx", args := [],
       env_vars := [], capabilities := ["sql"],
       trigger_task_types := ["data"], trigger_keywords := ["database"],
       requires_user_config := false, enabled := false,
       health_status := "unknown", priority := 4 } : MCPServer) ∉
      (select_mcps "data" "Query the database"
        [{ id := 7, name := "postgres", description := "Postgres MCP",
           category := "data", command := "npx", args := [],
           env_vars := [], capabilities := ["sql"],
           trigger_task_types := ["data"], trigger_keywords := ["database"],
           requires_user_config := false, enabled := false,
           health_status := "unknown", priority := 4 }] []).1 :=
  (c10_disabled_never_returned "data" "Query the database" _ [] _
    (by decide) (by decide)).1

theorem mem_candidatesList (task_type : String) (complexity : Int)
    (all_skills : List Skill) (it : Skill × ℚ)
    (h : it ∈ candidatesList task_type complexity all_skills) :
    it.1.complexity_range_min ≤ complexity ∧ complexity ≤ it.1.complexity_range_max := by
  obtain ⟨a, _, heq⟩ := List.mem_filterMap.mp h
  split_ifs at heq with hc
  cases heq
  simp only [Bool.and_eq_true, decide_eq_true_eq] at hc
  exact hc.2

theorem mem_forceInclude (selected : List (Skill × ℚ)) (all_skills : List Skill)
    (nm : String) (score : ℚ) (it : Skill × ℚ)
    (h : it ∈ forceInclude selected all_skills nm score) :
    it ∈ selected ∨ it.1.name = nm := by
  unfold forceInclude at h
  cases hf : all_skills.find? (fun s => s.name == nm && s.active) with
  | none =>
    rw [hf] at h
    exact Or.inl h
  | some s =>
    rw [hf] at h
    rcases List.mem_append.mp h with h1 | h1
    · exact Or.inl h1
    · have hp := List.find?_some hf
      simp only [Bool.and_eq_true, beq_iff_eq] at hp
      simp only [List.mem_singleton] at h1
      subst h1
      exact Or.inr hp.1

theorem mem_apply_profile_adjustments (selected : List (Skill × ℚ))
    (user_profile : UserProfile) (task_type : String) (all_skills : List Skill)
    (it : Skill × ℚ)
    (h : it ∈ apply_profile_adjustments selected user_profile task_type all_skills) :
    it ∈ selected ∨ it.1.name = "concise_mode" ∨ it.1.name = "error_handling_focus" := by
  simp only [apply_profile_adjustments] at h
  have h2 := List.take_subset _ _ h
  unfold sortByScoreDesc at h2
  rw [List.mem_insertionSort] at h2
  split_ifs at h2 with hx hy hz
  · rcases mem_forceInclude _ _ _ _ _ h2 with h3 | h3
    · rcases mem_forceInclude _ _ _ _ _ h3 with h4 | h4
      · exact Or.inl h4
      · exact Or.inr (Or.inl h4)
    · exact Or.inr (Or.inr h3)
  · rcases mem_forceInclude _ _ _ _ _ h2 with h3 | h3
    · exact Or.inl h3
    · exact Or.inr (Or.inl h3)
  · rcases mem_forceInclude _ _ _ _ _ h2 with h3 | h3
    · exact Or.inl h3
    · exact Or.inr (Or.inr h3)
  · exact Or.inl h2

/-- **C5 (counterexample).** A catalog holding an active `concise_mode`
skill declared for complexities 1–3, an expert profile, and a complexity-8
writing request: the skill is out of the base filter but force-included by
the profile adjustment, so the returned list contains a skill whose declared
range does not contain the request's complexity. -/
theorem c5_range_counterexample :
    (select_skills "writing" 8
        (some { technical_level := some "expert", communication_preferences := [] })
        [{ id := 1, name := "concise_mode", category := "formatting",
           description := "Be brief", implementation_template := "Be concise.",
           best_for_task_types := [], complexity_range_min := 1,
           complexity_range_max := 3, effectiveness_score := 7/10,
           usage_count := 0, positive_feedback_count := 0,
           negative_feedback_count := 0, active := true }]).map
      (fun s => s.name) = ["concise_mode"] ∧
    ((select_skills "writing" 8
        (some { technical_level := some "expert", communication_preferences := [] })
        [{ id := 1, name := "concise_mode", category := "formatting",
           description := "Be brief", implementation_template := "Be concise.",
           best_for_task_types := [], complexity_range_min := 1,
           complexity_range_max := 3, effectiveness_score := 7/10,
           usage_count := 0, positive_feedback_count := 0,
           negative_feedback_count := 0, active := true }]).all
      (fun s => decide (s.complexity_range_min ≤ (8 : Int)) &&
        decide ((8 : Int) ≤ s.complexity_range_max))) = false := by
  constructor
  · rfl
  · rfl

/-- **C5 (amended).** `select_skills` always returns at most 6 skills, and
every returned skill other than the profile-forced `concise_mode` /
`error_handling_focus` additions has a declared complexity range containing
the request's complexity (the forced additions skip the range check). -/
theorem c5_skills_amended (task_type : String) (complexity : Int)
    (user_profile : Option UserProfile) (catalog : List Skill) :
    (select_skills task_type complexity user_profile catalog).length ≤ 6 ∧
    ((select_skills task_type complexity user_profile catalog).all
      (fun s => s.name == "concise_mode" || s.name == "error_handling_focus" ||
        (decide (s.complexity_range_min ≤ complexity) &&
          decide (complexity ≤ s.complexity_range_max)))) = true := by
  constructor
  · cases user_profile with
    | none =>
      have h : select_skills task_type complexity none catalog =
          ((sortByScoreDesc (candidatesList task_type complexity
            (catalog.filter (fun s => s.active)))).take 5).map (fun it => it.1) := rfl
      rw [h]
      simp only [List.length_map, List.length_take]
      omega
    | some p =>
      have h : select_skills task_type complexity (some p) catalog =
          (apply_profile_adjustments
            ((sortByScoreDesc (candidatesList task_type complexity
              (catalog.filter (fun s => s.active)))).take 5) p task_type
            (catalog.filter (fun s => s.active))).map (fun it => it.1) := rfl
      rw [h]
      unfold apply_profile_adjustments
      simp only [List.length_map, List.length_take]
      omega
  · simp only [List.all_eq_true]
    intro s hs
    have hrange :
        ∀ it : Skill × ℚ,
          it ∈ (sortByScoreDesc (candidatesList task_type complexity
            (catalog.filter (fun sk => sk.active)))).take 5 →
          it.1.complexity_range_min ≤ complexity ∧
            complexity ≤ it.1.complexity_range_max := by
      intro it hit
      have := List.take_subset _ _ hit
      unfold sortByScoreDesc at this
      rw [List.mem_insertionSort] at this
      exact mem_candidatesList _ _ _ _ this
    cases user_profile with
    | none =>
      have h : select_skills task_type complexity none catalog =
          ((sortByScoreDesc (candidatesList task_type complexity
            (catalog.filter (fun sk => sk.active)))).take 5).map (fun it => it.1) := rfl
      rw [h] at hs
      obtain ⟨it, hit, rfl⟩ := List.mem_map.mp hs
      have := hrange it hit
      simp only [Bool.or_eq_true, Bool.and_eq_true, decide_eq_true_eq]
      exact Or.inr this
    | some p =>
      have h : select_skills task_type complexity (some p) catalog =
          (apply_profile_adjustments
            ((sortByScoreDesc (candidatesList task_type complexity
              (catalog.filter (fun sk => sk.active)))).take 5) p task_type
            (catalog.filter (fun sk => sk.active))).map (fun it => it.1) := rfl
      rw [h] at hs
      obtain ⟨it, hit, rfl⟩ := List.mem_map.mp hs
      rcases mem_apply_profile_adjustments _ _ _ _ _ hit with h1 | h1 | h1
      · have := hrange it h1
        simp only [Bool.or_eq_true, Bool.and_eq_true, decide_eq_true_eq]
        exact Or.inr this
      · simp only [Bool.or_eq_true, beq_iff_eq]
        exact Or.inl (Or.inl h1)
      · simp only [Bool.or_eq_true, beq_iff_eq]
        exact Or.inl (Or.inr h1)

/-- **C6 (counterexample).** When the primary provider is the default
(Gemini) itself and it fails, the single retry runs under the very provider
that just failed — refuting "never the originally-failed provider".  Both
attempts in the trace carry provider `"gemini"`. -/
theorem c6_retry_same_provider_counterexample :
    (execute_prompt (fun _ _ _ => Except.error "boom") "p"
      "gemini-3-flash-preview" "gemini" (some "gemini-3-pro-preview")).2 =
      [("gemini", "gemini-3-flash-preview"), ("gemini", "gemini-3-pro-preview")] := by
  decide

/-- **C6 (amended).** When the primary call fails with error `e`: at most one
retry is made (trace length ≤ 2); the first attempt is against the requested
provider and model; any retry runs the fallback model under the default
Gemini provider — never the alternate (Claude) provider, and never the same
model — and happens only when a fallback model distinct from the primary
model (and non-empty) was supplied; and if no retry succeeds the returned
dict is, without raising, the apology message with the primary error embedded
and empty `tool_calls_made` / `files_created`. -/
theorem c6_executor_fallback (call : String → String → String → Except String RawResult)
    (prompt model provider : String) (fallback_model : Option String) (e : String)
    (hfail : call (if provider = "claude" then "claude" else "gemini") model prompt =
      Except.error e) :
    (execute_prompt call prompt model provider fallback_model).2.length ≤ 2 ∧
    (execute_prompt call prompt model provider fallback_model).2.head? =
      some ((if provider = "claude" then "claude" else "gemini"), model) ∧
    (∀ pm ∈ (execute_prompt call prompt model provider fallback_model).2.tail,
      pm.1 = "gemini" ∧ pm.1 ≠ "claude" ∧ fallback_model = some pm.2 ∧ pm.2 ≠ model) ∧
    ((execute_prompt call prompt model provider fallback_model).1.fallback_used = false →
      (execute_prompt call prompt model provider fallback_model).1.content =
        "I encountered an error processing your request. Please try again.\n\nError: " ++ e ∧
      (execute_prompt call prompt model provider fallback_model).1.tool_calls_made = [] ∧
      (execute_prompt call prompt model provider fallback_model).1.files_created = []) := by
  simp only [execute_prompt]
  rw [hfail]
  cases fallback_model with
  | none =>
    refine ⟨by simp, by simp, by simp, ?_⟩
    intro _
    exact ⟨rfl, rfl, rfl⟩
  | some fb =>
    dsimp only
    by_cases hfb : fb ≠ "" ∧ fb ≠ model
    · rw [if_pos hfb]
      cases hretry : call "gemini" fb prompt with
      | ok result =>
        refine ⟨by simp, by simp, ?_, ?_⟩
        · intro pm hpm
          simp only [List.tail_cons, List.mem_singleton] at hpm
          subst hpm
          exact ⟨rfl, show ("gemini" : String) ≠ "claude" by decide, rfl, hfb.2⟩
        · intro hfu
          simp at hfu
      | error e2 =>
        refine ⟨by simp, by simp, ?_, ?_⟩
        · intro pm hpm
          simp only [List.tail_cons, List.mem_singleton] at hpm
          subst hpm
          exact ⟨rfl, show ("gemini" : String) ≠ "claude" by decide, rfl, hfb.2⟩
        · intro _
          exact ⟨rfl, rfl, rfl⟩
    · rw [if_neg hfb]
      refine ⟨by simp, by simp, by simp, ?_⟩
      intro _
      exact ⟨rfl, rfl, rfl⟩

/-- Closed witness for `c6_executor_fallback`: a Claude primary failure with
an always-failing service; the apology carries the error and empty
side-effect lists, and the single retry ran under Gemini. -/
theorem c6_executor_fallback_witness :
    (execute_prompt (fun _ _ _ => Except.error "boom") "p"
        "claude-sonnet-4-20250514" "claude" (some "gemini-3-flash-preview")).1.tool_calls_made = [] ∧
    (execute_prompt (fun _ _ _ => Except.error "boom") "p"
        "claude-sonnet-4-20250514" "claude" (some "gemini-3-flash-preview")).1.content =
      "I encountered an error processing your request. Please try again.\n\nError: " ++ "boom" := by
  have h := c6_executor_fallback (fun _ _ _ => Except.error "boom") "p"
    "claude-sonnet-4-20250514" "claude" (some "gemini-3-flash-preview") "boom" rfl
  have hfu : (execute_prompt (fun _ _ _ => Except.error "boom") "p"
      "claude-sonnet-4-20250514" "claude" (some "gemini-3-flash-preview")).1.fallback_used =
      false := by decide
  exact ⟨(h.2.2.2 hfu).2.1, (h.2.2.2 hfu).1⟩

/-- **C2 (counterexample).** A first-pass brainstorming turn (confidence 99,
no answers) where the clarifier produced no questions — exactly what
`generate_clarifications` returns when its call fails, its key is missing,
or the model finds nothing ambiguous: no clarification-request event is
emitted and the turn does not suspend, refuting "emits a
clarification-request event and suspends" for every such turn. -/
theorem c2_no_question_counterexample :
    processGate none none false
      { interpreted_intent := "build me a landing page", task_type := "creative",
        complexity := 5, confidence_score := 99, requires_brainstorming := true }
      { questions := [], needs_clarification := false }
      { approaches := [], context_summary := "" } =
      ([PEvent.status "clarifying"], false) := by
  decide

/-- **C2 (amended).** On a first-pass brainstorming turn (no truthy answers,
`requires_brainstorming` true) the clarifier is always invoked regardless of
the computed confidence score, and whenever it reports questions the gate
emits the clarification-request event and suspends — for every confidence
value and every prior-intake argument. -/
theorem c2_brainstorm_gate (previous_intake : Option IntakeDict)
    (clarification_answers : Option (List (String × String)))
    (selected_approach : Bool) (analyzed : IntakeDict)
    (clar : ClarificationResult) (appr : ApproachProposalResult)
    (hans : truthy clarification_answers = false)
    (hrb : analyzed.requires_brainstorming = true)
    (hq : clar.needs_clarification = true) :
    processGate previous_intake clarification_answers selected_approach
      analyzed clar appr =
      ([PEvent.status "clarifying", PEvent.clarification clar.questions], true) := by
  unfold processGate
  have hintake :
      (match previous_intake with
        | some prev =>
          if truthy clarification_answers then { prev with confidence_score := 95 }
          else analyzed
        | none => analyzed) = analyzed := by
    cases previous_intake with
    | none => rfl
    | some prev => rw [hans]; rfl
  rw [hintake]
  simp only [hrb, hans, hq]
  simp

/-- Closed witness for `c2_brainstorm_gate`: a high-confidence (95)
brainstorming turn with one clarifier question still suspends with a
clarification-request. -/
theorem c2_brainstorm_gate_witness :
    processGate none none false
      { interpreted_intent := "build me a landing page", task_type := "creative",
        complexity := 5, confidence_score := 95, requires_brainstorming := true }
      { questions := [{ question := "What kind of website?",
                        question_type := "multiple_choice",
                        options := ["Portfolio", "Business"],
                        default := "Portfolio", why_it_matters := "" }],
        needs_clarification := true }
      { approaches := [], context_summary := "" } =
      ([PEvent.status "clarifying",
        PEvent.clarification [{ question := "What kind of website?",
                                question_type := "multiple_choice",
                                options := ["Portfolio", "Business"],
                                default := "Portfolio", why_it_matters := "" }]], true) :=
  c2_brainstorm_gate none none false _ _ _ rfl rfl rfl
